import Mathlib

/-!
Shallow embedding of the SNMP v1/v2c manager-side client (`src/lib.rs`,
crate `yar-snmp`) and proofs about its observable behaviour.

Modelling conventions:
* Machine integers are modelled as `Nat` (u32/u64/usize octets, arcs) and
  `Int` (the arbitrary-precision `rasn::types::Integer` and request ids).
* Byte buffers (`Vec<u8>`, `OctetString`) are `List Nat`.
* OIDs (`rasn::types::ObjectIdentifier`, a sequence of u32 arcs) are
  `List Nat`.
* Fallible Rust code returning `SnmpResult<T>` is `Except SnmpError T`;
  a Rust panic (`unwrap`, out-of-bounds `vars[0]`, `String::from_utf8(..).unwrap()`)
  is modelled as `none` / a dedicated `panicked` outcome.
* The UDP socket is modelled as an environment: each send/receive attempt's
  outcome is a function of the attempt index, and the agent answering the
  walk's GetNext requests is a function of the call index and of the OID
  the walk would send for that call.
* The source's `walk` keeps `current` as a `String` and re-parses it on every
  `getnext` call; since `ObjectIdentifier`'s display form is exactly the
  dotted decimal form that `parse_oid` parses back to the same arcs, the
  model keeps `current` as the arc list directly.
* `println!` calls are I/O side effects with no influence on any returned
  value; they are dropped by the embedding (their absence from the results
  is itself the subject of one of the claims).
-/

/-- `enum SnmpError` from `src/lib.rs`. -/
inductive SnmpError
  | SendError
  | ReceiveError
  | ParseError
deriving DecidableEq, Repr

/-- `const BUFFER_SIZE: usize = 4096;` from `src/lib.rs`. -/
def BUFFER_SIZE : Nat := 4096

/-- `rasn_smi::v2::SimpleSyntax`: the universal SNMP value kinds. -/
inductive SimpleSyntax
  | integer (i : Int)
  | string (bytes : List Nat)
  | objectId (oid : List Nat)
deriving DecidableEq, Repr

/-- `rasn_smi::v2::ApplicationSyntax`: the application-wide SMI value kinds. -/
inductive ApplicationSyntax
  | address (ip : List Nat)
  | counter (n : Nat)
  | ticks (n : Nat)
  | bigCounter (n : Nat)
  | unsigned (n : Nat)
  | arbitrary (bytes : List Nat)
deriving DecidableEq, Repr

/-- `rasn_smi::v2::ObjectSyntax`. -/
inductive ObjectSyntax
  | simple (s : SimpleSyntax)
  | applicationWide (a : ApplicationSyntax)
deriving DecidableEq, Repr

/-- `rasn_snmp::v2::VarBindValue`. -/
inductive VarBindValue
  | value (v : ObjectSyntax)
  | unspecified
  | noSuchObject
  | noSuchInstance
  | endOfMibView
deriving DecidableEq, Repr

/-- `rasn_snmp::v2::VarBind`: an (OID name, value) pair. -/
structure VarBind where
  name : List Nat
  value : VarBindValue
deriving DecidableEq, Repr

/-- `rasn_snmp::v2::Pdu`: request id, error status, error index, bindings. -/
structure Pdu where
  request_id : Int
  error_status : Nat
  error_index : Nat
  variable_bindings : List VarBind
deriving DecidableEq, Repr

/-- `rasn_snmp::v2::BulkPdu`: request id, non-repeaters, max-repetitions, bindings. -/
structure BulkPdu where
  request_id : Int
  non_repeaters : Nat
  max_repetitions : Nat
  variable_bindings : List VarBind
deriving DecidableEq, Repr

/-- `rasn_snmp::v2::Pdus`: the PDU variants a v2c message can carry. -/
inductive Pdus
  | getRequest (p : Pdu)
  | getNextRequest (p : Pdu)
  | response (p : Pdu)
  | setRequest (p : Pdu)
  | getBulkRequest (p : BulkPdu)
  | informRequest (p : Pdu)
  | trap (p : Pdu)
  | report (p : Pdu)
deriving DecidableEq, Repr

/-- `rasn_snmp::v2c::Message`: version, community, PDU. -/
structure Message where
  version : Int
  community : List Nat
  data : Pdus
deriving DecidableEq, Repr

/-- The state of `struct SyncSession` relevant to message building: its
community string and version (the socket is modelled as an environment). -/
structure SyncSession where
  community : List Nat
  version : Int
deriving DecidableEq, Repr

/-- `v2c::Message::<T>::VERSION`: the SNMPv2c wire version constant. -/
def V2C_VERSION : Int := 1

/-- `v2::Pdu::ERROR_STATUS_NO._ERROR` (the no-error status code 0). -/
def ERROR_STATUS_NO_ERROR : Nat := 0

/-- Outcome of one iteration of the retry loop in `send_and_recv`:
`socket.send` failed, or send succeeded and `socket.recv` failed, or both
succeeded and the datagram `data` was written into the receive buffer. -/
inductive AttemptResult
  | sendFail
  | recvFail
  | recvOk (data : List Nat)
deriving DecidableEq, Repr

/-- The retry loop `for _ in 0..2` of `SyncSession::send_and_recv`.
`i` is the index of the next attempt (so far `i` send attempts were made),
`remaining` the iterations left.  On a successful receive the function
returns `recv.to_vec()`: the WHOLE 4096-byte buffer, i.e. the datagram
(truncated to the buffer size) followed by the untouched zero bytes.
The second component of the result is the number of `socket.send` calls
performed (proof instrumentation; the Rust function returns only the first
component). -/
def sendRecvLoop (env : Nat → AttemptResult) :
    Nat → Nat → Except SnmpError (List Nat) × Nat
  | i, 0 => (Except.error SnmpError.ReceiveError, i)
  | i, remaining + 1 =>
    match env i with
    | AttemptResult.sendFail => (Except.error SnmpError.SendError, i + 1)
    | AttemptResult.recvFail => sendRecvLoop env (i + 1) remaining
    | AttemptResult.recvOk data =>
        (Except.ok (data.take BUFFER_SIZE ++
          List.replicate (BUFFER_SIZE - data.length) 0), i + 1)

/-- `SyncSession::send_and_recv` from `src/lib.rs`: fresh zeroed 4096-byte
buffer, then the two-iteration send/receive loop. -/
def send_and_recv (env : Nat → AttemptResult) :
    Except SnmpError (List Nat) × Nat :=
  sendRecvLoop env 0 2

/-- Rust `str::split('.')` on the character list of the text: split at
every dot, keeping empty segments (the empty text yields one empty
segment, as in Rust). -/
def splitDots : List Char → List (List Char)
  | [] => [[]]
  | c :: rest =>
    if c = '.' then [] :: splitDots rest
    else
      match splitDots rest with
      | seg :: segs => (c :: seg) :: segs
      | [] => [[c]]

/-- ASCII decimal accumulator: consume the remaining characters as digits,
failing on any non-digit. -/
def parseDigitsAux : List Char → Nat → Option Nat
  | [], acc => some acc
  | c :: rest, acc =>
    if '0' ≤ c ∧ c ≤ '9' then parseDigitsAux rest (acc * 10 + (c.toNat - 48))
    else none

/-- Rust's integer `FromStr` accepts one optional leading `+` sign. -/
def stripPlusSign : List Char → List Char
  | '+' :: rest => rest
  | cs => cs

/-- Rust `str::parse::<u32>` as used by `parse_oid`: optional leading `+`,
then one or more ASCII decimal digits, value below 2^32; anything else is
an error. -/
def parseU32 (cs : List Char) : Option Nat :=
  match stripPlusSign cs with
  | [] => none
  | d :: ds =>
    match parseDigitsAux (d :: ds) 0 with
    | some n => if n < 2 ^ 32 then some n else none
    | none => none

/-- `SyncSession::parse_oid` from `src/lib.rs`: split the text on `.`,
keep the segments that parse as `u32`, silently drop the rest
(`filter_map(|part| part.parse::<u32>().ok())`); no validation beyond that
(`ObjectIdentifier::new_unchecked`). -/
def parse_oid (value : String) : List Nat :=
  (splitDots value.data).filterMap parseU32

/-- `SyncSession::parse_response` from `src/lib.rs`: on a `Response` PDU
it prints the error status/index to stdout (side effect, absent from the
model) and returns ONLY the variable bindings; any other PDU kind is a
`ParseError`. -/
def parse_response (message : Message) : Except SnmpError (List VarBind) :=
  match message.data with
  | Pdus.response p => Except.ok p.variable_bindings
  | _ => Except.error SnmpError.ParseError

/-- Continuation byte test for UTF-8 validation (0x80..=0xBF). -/
def utf8Cont (c : Nat) : Bool := 0x80 ≤ c && c ≤ 0xBF

/-- UTF-8 decoding as performed by Rust's `String::from_utf8` (RFC 3629
well-formedness: no overlongs, no surrogates, max U+10FFFF); `none` models
the `Err` case, on which the source's `.unwrap()` panics. -/
def utf8Decode? : List Nat → Option (List Char)
  | [] => some []
  | b :: rest =>
    if b ≤ 0x7F then
      (utf8Decode? rest).map (fun cs => Char.ofNat b :: cs)
    else if 0xC2 ≤ b && b ≤ 0xDF then
      match rest with
      | c1 :: rest2 =>
        if utf8Cont c1 then
          (utf8Decode? rest2).map
            (fun cs => Char.ofNat ((b - 0xC0) * 0x40 + (c1 - 0x80)) :: cs)
        else none
      | [] => none
    else if 0xE0 ≤ b && b ≤ 0xEF then
      match rest with
      | c1 :: c2 :: rest2 =>
        if (if b = 0xE0 then decide (0xA0 ≤ c1 ∧ c1 ≤ 0xBF)
            else if b = 0xED then decide (0x80 ≤ c1 ∧ c1 ≤ 0x9F)
            else utf8Cont c1) && utf8Cont c2 then
          (utf8Decode? rest2).map
            (fun cs => Char.ofNat
              ((b - 0xE0) * 0x1000 + (c1 - 0x80) * 0x40 + (c2 - 0x80)) :: cs)
        else none
      | _ => none
    else if 0xF0 ≤ b && b ≤ 0xF4 then
      match rest with
      | c1 :: c2 :: c3 :: rest2 =>
        if (if b = 0xF0 then decide (0x90 ≤ c1 ∧ c1 ≤ 0xBF)
            else if b = 0xF4 then decide (0x80 ≤ c1 ∧ c1 ≤ 0x8F)
            else utf8Cont c1) && utf8Cont c2 && utf8Cont c3 then
          (utf8Decode? rest2).map
            (fun cs => Char.ofNat
              ((b - 0xF0) * 0x40000 + (c1 - 0x80) * 0x1000 +
               (c2 - 0x80) * 0x40 + (c3 - 0x80)) :: cs)
        else none
      | _ => none
    else none

/-- Dotted-decimal rendering used for OIDs and IP addresses:
`iter().map(ToString::to_string).collect::<Vec<_>>().join(".")`. -/
def dotJoin (l : List Nat) : String :=
  String.intercalate "." (l.map toString)

/-- `SyncSession::parse_value` from `src/lib.rs`.  `none` models the panic
of `String::from_utf8(str.to_vec()).unwrap()` on non-UTF-8 bytes; the
`Arbitrary` (Opaque) arm prints a debug dump to stdout (side effect, absent
from the model) and returns the empty string; every non-`Value` variant
falls into the `_ => "".to_string()` arm. -/
def parse_value : VarBindValue → Option String
  | VarBindValue.value (ObjectSyntax.simple (SimpleSyntax.integer i)) =>
      some (toString i)
  | VarBindValue.value (ObjectSyntax.simple (SimpleSyntax.string bytes)) =>
      (utf8Decode? bytes).map List.asString
  | VarBindValue.value (ObjectSyntax.simple (SimpleSyntax.objectId oid)) =>
      some (dotJoin oid)
  | VarBindValue.value (ObjectSyntax.applicationWide (ApplicationSyntax.address ip)) =>
      some (dotJoin ip)
  | VarBindValue.value (ObjectSyntax.applicationWide (ApplicationSyntax.counter n)) =>
      some (toString n)
  | VarBindValue.value (ObjectSyntax.applicationWide (ApplicationSyntax.ticks n)) =>
      some (toString n)
  | VarBindValue.value (ObjectSyntax.applicationWide (ApplicationSyntax.bigCounter n)) =>
      some (toString n)
  | VarBindValue.value (ObjectSyntax.applicationWide (ApplicationSyntax.unsigned n)) =>
      some (toString n)
  | VarBindValue.value (ObjectSyntax.applicationWide (ApplicationSyntax.arbitrary _)) =>
      some ""
  | _ => some ""

/-- The request message built by `SyncSession::get`: the session's version
and community, a `GetRequest` PDU with hard-coded `request_id: 1`, no-error
status/index, and a single unspecified binding for the parsed OID. -/
def mkGet (s : SyncSession) (oid : String) : Message :=
  { version := s.version
    community := s.community
    data := Pdus.getRequest
      { request_id := 1
        error_status := ERROR_STATUS_NO_ERROR
        error_index := 0
        variable_bindings := [{ name := parse_oid oid, value := VarBindValue.unspecified }] } }

/-- The request message built by `SyncSession::getnext`: note the version
field is `v2c::Message::<v2::GetNextRequest>::VERSION.into()` — the fixed
v2c constant, NOT `self.version` — while the community is the session's;
`request_id` is again the constant 1. -/
def mkGetnext (s : SyncSession) (oid : String) : Message :=
  { version := V2C_VERSION
    community := s.community
    data := Pdus.getNextRequest
      { request_id := 1
        error_status := ERROR_STATUS_NO_ERROR
        error_index := 0
        variable_bindings := [{ name := parse_oid oid, value := VarBindValue.unspecified }] } }

/-- The request message built by `SyncSession::getbulk`: the session's
version and community, a `GetBulkRequest` PDU with hard-coded
`request_id: 1` and the caller's non-repeaters/max-repetitions. -/
def mkGetbulk (s : SyncSession) (oid : String)
    (non_repeaters max_repetitions : Nat) : Message :=
  { version := s.version
    community := s.community
    data := Pdus.getBulkRequest
      { request_id := 1
        non_repeaters := non_repeaters
        max_repetitions := max_repetitions
        variable_bindings := [{ name := parse_oid oid, value := VarBindValue.unspecified }] } }

/-- The request id carried by a message's PDU. -/
def requestIdOf (m : Message) : Int :=
  match m.data with
  | Pdus.getRequest p => p.request_id
  | Pdus.getNextRequest p => p.request_id
  | Pdus.response p => p.request_id
  | Pdus.setRequest p => p.request_id
  | Pdus.getBulkRequest b => b.request_id
  | Pdus.informRequest p => p.request_id
  | Pdus.trap p => p.request_id
  | Pdus.report p => p.request_id

/-- The response-processing tail of `SyncSession::getnext`
(`src/lib.rs` lines 167-171), with the BER decoder abstracted as an oracle
`decode` (it is the external `rasn::ber::decode` library call).
`none` models a panic: both `Self::send_and_recv(..).unwrap()` and
`rasn::ber::decode(..).unwrap()` panic on error instead of returning
`Err` to the caller; only `parse_response`'s result is returned as the
`SnmpResult`. -/
def getnext (env : Nat → AttemptResult) (decode : List Nat → Option Message) :
    Option (Except SnmpError (List VarBind)) :=
  match (send_and_recv env).1 with
  | Except.error _ => none
  | Except.ok bytes =>
    match decode bytes with
    | none => none
    | some msg => some (parse_response msg)

/-- Lexicographic (strict) order on arc lists, the `Ord` used by
`BTreeMap<Vec<u32>, _>` for its key order. -/
def oidLtb : List Nat → List Nat → Bool
  | [], [] => false
  | [], _ :: _ => true
  | _ :: _, [] => false
  | a :: as_, b :: bs => a < b || (a = b && oidLtb as_ bs)

/-- `BTreeMap::insert` on the sorted-association-list model of
`BTreeMap<Vec<u32>, VarBindValue>`: replace the value at an existing key,
otherwise insert at the key-ordered position. -/
def mapInsert (m : List (List Nat × VarBindValue)) (k : List Nat)
    (v : VarBindValue) : List (List Nat × VarBindValue) :=
  match m with
  | [] => [(k, v)]
  | (k', v') :: rest =>
    if k = k' then (k, v) :: rest
    else if oidLtb k k' then (k, v) :: (k', v') :: rest
    else (k', v') :: mapInsert rest k v

/-- Outcome of the walk loop under a fuel bound: a normal return
(`Ok(result)`), a Rust panic (the `vars[0]` index on an empty binding
list), or fuel exhaustion — the loop was still running after `fuel`
iterations.  The Rust loop has no fuel: `outOfFuel` for every fuel bound
means the source loops forever on that environment. -/
inductive WalkOutcome
  | ok (result : List (List Nat × VarBindValue))
  | panicked
  | outOfFuel
deriving DecidableEq, Repr

/-- The `loop` of `SyncSession::walk` (`src/lib.rs` lines 205-222).
`agent k current` is the result of the `self.getnext(&current)` call number
`k` (the environment's reply to that request).  On `Err(_)` the loop body
does nothing and retries (`Err(_) => {}`); on `Ok(vars)` it takes
`vars[0]` (panicking if empty), tests `var.name.starts_with(&start)`,
records the suffix mapping and advances `current` on success, and returns
the accumulated map on failure of the prefix test. -/
def walkLoop (agent : Nat → List Nat → Except SnmpError (List VarBind))
    (start : List Nat) :
    Nat → List Nat → List (List Nat × VarBindValue) → Nat → WalkOutcome
  | _, _, _, 0 => WalkOutcome.outOfFuel
  | k, current, result, fuel + 1 =>
    match agent k current with
    | Except.error _ => walkLoop agent start (k + 1) current result fuel
    | Except.ok [] => WalkOutcome.panicked
    | Except.ok (var :: _) =>
      if start.isPrefixOf var.name then
        walkLoop agent start (k + 1) var.name
          (mapInsert result (var.name.drop start.length) var.value) fuel
      else
        WalkOutcome.ok result

/-- `SyncSession::walk` from `src/lib.rs`: `start = parse_oid(oid)`,
`current` starts at the root OID, the result map starts empty. -/
def walk (agent : Nat → List Nat → Except SnmpError (List VarBind))
    (oid : String) (fuel : Nat) : WalkOutcome :=
  walkLoop agent (parse_oid oid) 0 (parse_oid oid) [] fuel

/-- The OID the walk sends on its `i`-th `getnext` call when every earlier
reply carried first-binding name `f j` and passed the subtree test:
the root for the first call, then always the previously returned name. -/
def currentSeq (root : List Nat) (f : Nat → List Nat) : Nat → List Nat
  | 0 => root
  | i + 1 => f i

/-- The mapping accumulated by `m` recording steps of the walk starting
at call index `k`: step `i` inserts the suffix of `f (k+i)` beyond the
root's length, mapped to the step's value `g (k+i)`. -/
def walkAccum (start : List Nat) (f : Nat → List Nat) (g : Nat → VarBindValue) :
    Nat → Nat → List (List Nat × VarBindValue) → List (List Nat × VarBindValue)
  | _, 0, r => r
  | k, m + 1, r =>
      walkAccum start f g (k + 1) m
        (mapInsert r ((f k).drop start.length) (g k))

/-! Concrete instances used by witnesses. -/

/-- An environment whose every receive attempt fails (send succeeds). -/
def envAllRecvFail : Nat → AttemptResult := fun _ => AttemptResult.recvFail

/-- An environment whose every send attempt fails. -/
def envAllSendFail : Nat → AttemptResult := fun _ => AttemptResult.sendFail

/-- A sample received datagram (a short BER-style byte string). -/
def dataC10 : List Nat := [48, 6, 2, 1, 5, 0]

/-- A concrete session configured for SNMPv1 (version code 0),
community "public". -/
def sessionV1 : SyncSession :=
  { community := [112, 117, 98, 108, 105, 99], version := 0 }

/-- The root OID of the spec's walk-boundary scenario. -/
def rootC4 : String := "1.3.6.1.2.1.2.2.1.6"

/-- First-binding names returned by the walk-boundary scenario's agent:
two in-subtree OIDs, then an out-of-subtree one. -/
def fC4 : Nat → List Nat := fun k =>
  if k = 0 then [1, 3, 6, 1, 2, 1, 2, 2, 1, 6, 1]
  else if k = 1 then [1, 3, 6, 1, 2, 1, 2, 2, 1, 6, 2]
  else [1, 3, 6, 1, 2, 1, 2, 3, 1, 1]

/-- Values returned by the walk-boundary scenario's agent. -/
def gC4 : Nat → VarBindValue := fun k =>
  VarBindValue.value (ObjectSyntax.simple (SimpleSyntax.integer k))

/-- Trailing bindings of each reply in the walk-boundary scenario (none). -/
def restC4 : Nat → List VarBind := fun _ => []

/-- The walk-boundary scenario's agent: reply `k` carries first binding
`(fC4 k, gC4 k)` regardless of the requested OID. -/
def agentC4 : Nat → List Nat → Except SnmpError (List VarBind) :=
  fun k _ => Except.ok ({ name := fC4 k, value := gC4 k } :: restC4 k)

/-- An agent whose every reply is a successful response with an empty
variable-binding list. -/
def agentEmptyVB : Nat → List Nat → Except SnmpError (List VarBind) :=
  fun _ _ => Except.ok []



/-! Helper lemmas. -/

/-- `isPrefixOf` is reflexive on arc lists. -/
theorem isPrefixOf_self (l : List Nat) : l.isPrefixOf l = true := by
  induction l with
  | nil => rfl
  | cons a as ih => simp [List.isPrefixOf, ih]

/-- A value parsed by `parseU32` is below 2^32. -/
theorem parseU32_lt (seg : List Char) (a : Nat) (h : parseU32 seg = some a) :
    a < 2 ^ 32 := by
  cases hs : stripPlusSign seg with
  | nil =>
    simp only [parseU32, hs] at h
    exact Option.noConfusion h
  | cons d ds =>
    cases hn : parseDigitsAux (d :: ds) 0 with
    | none =>
      simp only [parseU32, hs, hn] at h
      exact Option.noConfusion h
    | some n =>
      simp only [parseU32, hs, hn] at h
      by_cases hb : n < 2 ^ 32
      · rw [if_pos hb] at h
        cases h
        exact hb
      · rw [if_neg hb] at h
        exact Option.noConfusion h

/-- The retry loop of `walk` never leaves the loop while the agent keeps
answering with a first binding that echoes the requested OID: `current`
never changes, and every fuel bound is exhausted. -/
theorem walkLoop_echo_aux (v : VarBindValue) (start : List Nat) :
    ∀ (fuel k : Nat) (result : List (List Nat × VarBindValue)),
      walkLoop (fun _ current => Except.ok [{ name := current, value := v }])
        start k start result fuel = WalkOutcome.outOfFuel
  | 0, _, _ => rfl
  | fuel + 1, k, result => by
    simp only [walkLoop, isPrefixOf_self, if_true]
    exact walkLoop_echo_aux v start fuel (k + 1) _

/-- The retry loop of `walk` never leaves the loop while the agent keeps
failing: the `Err(_) => {}` arm changes nothing, and every fuel bound is
exhausted. -/
theorem walkLoop_error_aux (e : SnmpError) (start : List Nat) :
    ∀ (fuel k : Nat) (current : List Nat)
      (result : List (List Nat × VarBindValue)),
      walkLoop (fun _ _ => Except.error e) start k current result fuel =
        WalkOutcome.outOfFuel
  | 0, _, _, _ => rfl
  | fuel + 1, k, current, result => by
    simp only [walkLoop]
    exact walkLoop_error_aux e start fuel (k + 1) current result

/-- Functional characterization of the walk loop on a run of successful
replies: if, starting at call index `k` with `current` equal to
`currentSeq start f k`, the agent answers call `i` (for `k ≤ i ≤ k + m`)
with first binding `(f i, g i)`, the first `m` of those names pass the
subtree test and name `k + m` fails it, then the loop returns the map
obtained by recording the `m` in-subtree suffix/value pairs. -/
theorem walkLoop_run
    (agent : Nat → List Nat → Except SnmpError (List VarBind))
    (start : List Nat) (f : Nat → List Nat) (g : Nat → VarBindValue)
    (rest : Nat → List VarBind) :
    ∀ (m k : Nat) (result : List (List Nat × VarBindValue)) (fuel : Nat),
      m < fuel →
      (∀ i, k ≤ i → i ≤ k + m →
        agent i (currentSeq start f i) =
          Except.ok ({ name := f i, value := g i } :: rest i)) →
      (∀ i, k ≤ i → i < k + m → start.isPrefixOf (f i) = true) →
      start.isPrefixOf (f (k + m)) = false →
      walkLoop agent start k (currentSeq start f k) result fuel =
        WalkOutcome.ok (walkAccum start f g k m result) := by
  intro m
  induction m with
  | zero =>
    intro k result fuel hfuel hag _hin hout
    cases fuel with
    | zero => omega
    | succ fl =>
      rw [Nat.add_zero] at hout
      simp only [walkLoop, hag k le_rfl (by omega), hout]
      rfl
  | succ m ih =>
    intro k result fuel hfuel hag hin hout
    cases fuel with
    | zero => omega
    | succ fl =>
      have hk : start.isPrefixOf (f k) = true := hin k le_rfl (by omega)
      simp only [walkLoop, hag k le_rfl (by omega), hk]
      have hstep :
          walkLoop agent start (k + 1) (currentSeq start f (k + 1))
            (mapInsert result ((f k).drop start.length) (g k)) fl =
            WalkOutcome.ok (walkAccum start f g (k + 1) m
              (mapInsert result ((f k).drop start.length) (g k))) := by
        refine ih (k + 1) _ fl (by omega) ?_ ?_ ?_
        · intro i h1 h2
          exact hag i (by omega) (by omega)
        · intro i h1 h2
          exact hin i (by omega) (by omega)
        · have : k + 1 + m = k + (m + 1) := by omega
          rw [this]
          exact hout
      exact hstep

/-! Claim theorems. -/

/-- Claim C1 fails on the code (code bug): `walk` has no guard against a
non-increasing returned OID.  Against an agent whose GetNext reply echoes
the requested OID as its first binding's name, the echoed name passes the
`starts_with` subtree test, `current` never changes, and the loop runs
past every fuel bound — i.e. the source loops forever instead of stopping,
so a caller does experience an unbounded walk. -/
theorem walk_nonincreasing_unguarded (v : VarBindValue) (oid : String)
    (fuel : Nat) :
    walk (fun _ current => Except.ok [{ name := current, value := v }])
      oid fuel = WalkOutcome.outOfFuel :=
  walkLoop_echo_aux v (parse_oid oid) fuel 0 []

/-- Claim C2 fails on the code (code bug): failures are not propagated.
A send or receive failure inside `getnext` hits
`Self::send_and_recv(..).unwrap()` and panics (modelled `none`) instead of
returning an error to the caller, and a `getnext` step that returns `Err`
inside `walk` is silently swallowed by the `Err(_) => {}` arm: the walk
re-issues GetNext on the same OID forever (exhausts every fuel bound)
instead of treating the failure as terminal. -/
theorem getnext_panics_and_walk_swallows_errors :
    (∀ decode, getnext envAllSendFail decode = none) ∧
    (∀ decode, getnext envAllRecvFail decode = none) ∧
    (∀ (e : SnmpError) (oid : String) (fuel : Nat),
      walk (fun _ _ => Except.error e) oid fuel = WalkOutcome.outOfFuel) :=
  ⟨fun _ => rfl, fun _ => rfl,
   fun e oid fuel => walkLoop_error_aux e (parse_oid oid) fuel 0 (parse_oid oid) []⟩

/-- Claim C3: if every receive attempt fails (sends succeeding), the
retry loop surfaces `ReceiveError` after exactly 2 send attempts, and if
the first send attempt fails it surfaces `SendError` immediately after
that single send attempt, with no retry. -/
theorem send_and_recv_retry_bound (env envS : Nat → AttemptResult)
    (hr : ∀ i, env i = AttemptResult.recvFail)
    (hs : envS 0 = AttemptResult.sendFail) :
    send_and_recv env = (Except.error SnmpError.ReceiveError, 2) ∧
    send_and_recv envS = (Except.error SnmpError.SendError, 1) := by
  constructor
  · simp only [send_and_recv, sendRecvLoop, hr]
  · simp only [send_and_recv, sendRecvLoop, hs]

/-- Witness for C3 at the concrete all-receive-fail and send-fail
environments. -/
theorem send_and_recv_retry_bound_witness :
    (∀ i, envAllRecvFail i = AttemptResult.recvFail) ∧
    envAllSendFail 0 = AttemptResult.sendFail ∧
    send_and_recv envAllRecvFail = (Except.error SnmpError.ReceiveError, 2) ∧
    send_and_recv envAllSendFail = (Except.error SnmpError.SendError, 1) :=
  ⟨fun _ => rfl, rfl,
   (send_and_recv_retry_bound envAllRecvFail envAllSendFail
     (fun _ => rfl) rfl).1,
   (send_and_recv_retry_bound envAllRecvFail envAllSendFail
     (fun _ => rfl) rfl).2⟩

/-- Claim C4: over a run of successful GetNext replies, `walk` issues its
calls at `current` values that follow the returned names (`currentSeq`),
records the suffix-to-value mapping of every reply whose first binding's
name has the root as a prefix of its arcs, and on the first reply whose
name fails the prefix test stops and returns exactly the accumulated
mapping (`walkAccum`), without recording that final binding. -/
theorem walk_subtree_accumulation (oid : String)
    (agent : Nat → List Nat → Except SnmpError (List VarBind))
    (f : Nat → List Nat) (g : Nat → VarBindValue)
    (rest : Nat → List VarBind) (m fuel : Nat)
    (hfuel : m < fuel)
    (hag : ∀ i, i ≤ m →
      agent i (currentSeq (parse_oid oid) f i) =
        Except.ok ({ name := f i, value := g i } :: rest i))
    (hin : ∀ i, i < m → (parse_oid oid).isPrefixOf (f i) = true)
    (hout : (parse_oid oid).isPrefixOf (f m) = false) :
    walk agent oid fuel =
      WalkOutcome.ok (walkAccum (parse_oid oid) f g 0 m []) :=
  walkLoop_run agent (parse_oid oid) f g rest m 0 [] fuel hfuel
    (fun i _ h2 => hag i (by omega))
    (fun i _ h2 => hin i (by omega))
    (by simpa using hout)

/-- Witness for C4: the spec's walk-boundary scenario (root
`1.3.6.1.2.1.2.2.1.6`, two in-subtree replies, one out-of-subtree reply)
yields exactly the two-entry mapping with suffixes `[1]` and `[2]`. -/
theorem walk_subtree_accumulation_witness :
    (2 : Nat) < 3 ∧
    (∀ i, i ≤ 2 →
      agentC4 i (currentSeq (parse_oid rootC4) fC4 i) =
        Except.ok ({ name := fC4 i, value := gC4 i } :: restC4 i)) ∧
    (∀ i, i < 2 → (parse_oid rootC4).isPrefixOf (fC4 i) = true) ∧
    (parse_oid rootC4).isPrefixOf (fC4 2) = false ∧
    walk agentC4 rootC4 3 =
      WalkOutcome.ok (walkAccum (parse_oid rootC4) fC4 gC4 0 2 []) ∧
    walk agentC4 rootC4 3 = WalkOutcome.ok [([1], gC4 0), ([2], gC4 1)] :=
  ⟨by decide, fun i _ => rfl, by decide, by decide,
   walk_subtree_accumulation rootC4 agentC4 fC4 gC4 restC4 2 3
     (by decide) (fun i _ => rfl) (by decide) (by decide),
   by decide⟩

/-- Claim C5 fails on the code (code bug): `parse_response` returns only
the variable bindings; the agent's error-status and error-index are
printed to stdout and do not reach the caller through the result, so a
nonzero error-status is indistinguishable from a no-error response in the
value returned by `getnext`/`getbulk`. -/
theorem parse_response_discards_error_status (ver : Int) (comm : List Nat)
    (rid : Int) (status index : Nat) (bs : List VarBind) :
    parse_response
      { version := ver, community := comm,
        data := Pdus.response
          { request_id := rid, error_status := status,
            error_index := index, variable_bindings := bs } } =
      Except.ok bs ∧
    parse_response
      { version := ver, community := comm,
        data := Pdus.response
          { request_id := rid, error_status := 5,
            error_index := 1, variable_bindings := bs } } =
    parse_response
      { version := ver, community := comm,
        data := Pdus.response
          { request_id := rid, error_status := ERROR_STATUS_NO_ERROR,
            error_index := 0, variable_bindings := bs } } :=
  ⟨rfl, rfl⟩

/-- Claim C6 fails on the code (counterexample): on an SNMPv1 session
(version code 0), the message built by `getnext` carries the fixed v2c
version constant 1 instead of the session's version, and every request
built by `get`/`getnext`/`getbulk` carries the constant request id 1, so
two successive requests on the same session share the same id. -/
theorem request_version_and_id_counterexample :
    (mkGetnext sessionV1 "1.3.6.1").version ≠ sessionV1.version ∧
    requestIdOf (mkGet sessionV1 "1.3.6.1.2") =
      requestIdOf (mkGet sessionV1 "1.3.6.1.3") ∧
    requestIdOf (mkGet sessionV1 "1.3.6.1.2") = 1 ∧
    requestIdOf (mkGetnext sessionV1 "1.3.6.1.2") =
      requestIdOf (mkGetnext sessionV1 "1.3.6.1.3") ∧
    requestIdOf (mkGetbulk sessionV1 "1.3.6.1.2" 0 10) = 1 := by
  refine ⟨?_, rfl, rfl, rfl, rfl⟩
  decide

/-- Amended C6: every request message carries the session's community;
`get` and `getbulk` carry the session's version while `getnext` always
carries the fixed v2c version constant; and the request id is the
constant 1 in every request rather than a value from an incrementing
counter. -/
theorem request_message_fields (s : SyncSession) (oid : String)
    (nr mr : Nat) :
    (mkGet s oid).version = s.version ∧
    (mkGet s oid).community = s.community ∧
    requestIdOf (mkGet s oid) = 1 ∧
    (mkGetnext s oid).version = V2C_VERSION ∧
    (mkGetnext s oid).community = s.community ∧
    requestIdOf (mkGetnext s oid) = 1 ∧
    (mkGetbulk s oid nr mr).version = s.version ∧
    (mkGetbulk s oid nr mr).community = s.community ∧
    requestIdOf (mkGetbulk s oid nr mr) = 1 :=
  ⟨rfl, rfl, rfl, rfl, rfl, rfl, rfl, rfl, rfl⟩

/-- Claim C7 fails on the code (code bug): `parse_value` renders every
Opaque (`Arbitrary`) value as the empty string (the bytes are only
debug-printed to stdout), and it is not total: an octet-string value
holding invalid UTF-8 makes `String::from_utf8(..).unwrap()` panic
(modelled as `none`). -/
theorem parse_value_opaque_empty :
    (∀ bytes, parse_value (VarBindValue.value (ObjectSyntax.applicationWide
      (ApplicationSyntax.arbitrary bytes))) = some "") ∧
    parse_value (VarBindValue.value (ObjectSyntax.simple
      (SimpleSyntax.string [255]))) = none :=
  ⟨fun _ => rfl, rfl⟩

/-- Counterexample to Claim C8: parsing the empty string produces an Oid
with zero arcs, violating the at-least-one-arc invariant. -/
theorem parse_oid_empty_counterexample :
    parse_oid "" = [] ∧ ¬ 1 ≤ (parse_oid "").length := by
  constructor
  · rfl
  · decide

/-- Amended C8: every arc of a parsed Oid is some dot-segment parsed as a
`u32` (hence non-negative and below 2^32), and non-numeric or empty
segments are silently dropped; but the resulting Oid is non-empty only
when at least one segment is numeric, so the at-least-one-arc invariant
can fail (e.g. on the empty string). -/
theorem parse_oid_arcs (s : String) :
    (∀ a ∈ parse_oid s, ∃ seg ∈ splitDots s.data, parseU32 seg = some a) ∧
    (∀ a ∈ parse_oid s, a < 2 ^ 32) ∧
    (parse_oid s ≠ [] ↔ ∃ seg ∈ splitDots s.data, (parseU32 seg).isSome) := by
  refine ⟨?_, ?_, ?_⟩
  · intro a ha
    exact List.mem_filterMap.mp ha
  · intro a ha
    obtain ⟨seg, _, hseg⟩ := List.mem_filterMap.mp ha
    exact parseU32_lt seg a hseg
  · rw [Ne, parse_oid, List.filterMap_eq_nil_iff]
    push_neg
    simp only [Option.isSome_iff_ne_none]

/-- Claim C9: whenever a `getnext` step of the walk loop succeeds with an
empty variable-binding list, the unconditional `vars[0]` index panics —
both at an arbitrary loop position and at the public `walk` entry when
the first reply is empty. -/
theorem walk_empty_bindings_panics
    (agent : Nat → List Nat → Except SnmpError (List VarBind))
    (oid : String) (k : Nat) (current : List Nat)
    (result : List (List Nat × VarBindValue)) (fuel fl : Nat)
    (h : agent k current = Except.ok [])
    (h0 : agent 0 (parse_oid oid) = Except.ok []) :
    walkLoop agent (parse_oid oid) k current result (fuel + 1) =
      WalkOutcome.panicked ∧
    walk agent oid (fl + 1) = WalkOutcome.panicked := by
  constructor
  · simp only [walkLoop, h]
  · simp only [walk, walkLoop, h0]

/-- Witness for C9: the all-empty-reply agent makes the walk panic. -/
theorem walk_empty_bindings_panics_witness :
    agentEmptyVB 0 (parse_oid "1.3.6") = Except.ok [] ∧
    walkLoop agentEmptyVB (parse_oid "1.3.6") 0 [1, 3, 6] [] 1 =
      WalkOutcome.panicked ∧
    walk agentEmptyVB "1.3.6" 1 = WalkOutcome.panicked :=
  ⟨rfl,
   (walk_empty_bindings_panics agentEmptyVB "1.3.6" 0 [1, 3, 6] [] 0 0
     rfl rfl).1,
   (walk_empty_bindings_panics agentEmptyVB "1.3.6" 0 [1, 3, 6] [] 0 0
     rfl rfl).2⟩

/-- Claim C10: on a successful receive, `send_and_recv` returns the whole
fixed-size receive buffer — the datagram zero-padded to 4096 bytes, of
length exactly `BUFFER_SIZE` — after a single send attempt, and that
whole padded buffer is exactly what `getnext` hands to the BER decoder. -/
theorem send_and_recv_whole_buffer (data : List Nat)
    (h : data.length ≤ BUFFER_SIZE) :
    send_and_recv (fun _ => AttemptResult.recvOk data) =
      (Except.ok (data ++ List.replicate (BUFFER_SIZE - data.length) 0), 1) ∧
    (data ++ List.replicate (BUFFER_SIZE - data.length) 0).length =
      BUFFER_SIZE ∧
    ∀ decode, getnext (fun _ => AttemptResult.recvOk data) decode =
      match decode (data ++ List.replicate (BUFFER_SIZE - data.length) 0) with
      | none => none
      | some msg => some (parse_response msg) := by
  have h1 : send_and_recv (fun _ => AttemptResult.recvOk data) =
      (Except.ok (data ++ List.replicate (BUFFER_SIZE - data.length) 0), 1) := by
    simp only [send_and_recv, sendRecvLoop]
    rw [List.take_of_length_le h]
  refine ⟨h1, ?_, ?_⟩
  · simp only [List.length_append, List.length_replicate]
    omega
  · intro decode
    simp only [getnext, h1]

/-- Witness for C10 at a concrete six-byte datagram. -/
theorem send_and_recv_whole_buffer_witness :
    dataC10.length ≤ BUFFER_SIZE ∧
    send_and_recv (fun _ => AttemptResult.recvOk dataC10) =
      (Except.ok (dataC10 ++
        List.replicate (BUFFER_SIZE - dataC10.length) 0), 1) :=
  ⟨by decide, (send_and_recv_whole_buffer dataC10 (by decide)).1⟩
